import Mathlib

/-!
Shallow embedding of `bench/run_benchmark.py` (the task-execution lifecycle
controller, result aggregation and history tracking of the benchmark
harness), together with proofs of the specification claims.

Conventions of the embedding:
* Python floats are modelled as exact rationals (`ℚ`); `round(x, n)` is
  modelled as rounding `x * 10^n` to the nearest integer.
* Python dicts whose iteration order matters (model-usage maps) are
  modelled as association lists in insertion order, with unique keys
  maintained by the operations exactly as the code maintains them.
* Python `None` is `Option.none`; Python string truthiness (`or`, `not s`)
  is modelled explicitly (`""` and `None` are falsy).
* External effects (the `claude` subprocess, `json.loads`, the test
  subprocess) are parameters of the embedded functions: an invocation
  outcome, an abstract JSON parser, and a per-attempt test verdict.
-/

namespace Bench

/-- `MAX_ATTEMPTS` from `run_benchmark.py`. -/
def MAX_ATTEMPTS : Nat := 2

/-- `MAX_TURNS` from `run_benchmark.py`. -/
def MAX_TURNS : Nat := 6

/-- Per-model token usage: the inner dict `{"inputTokens": _, "outputTokens": _}`.
A key absent from the Python dict reads as `0` (`usage.get(key, 0)`). -/
structure Usage where
  inputTokens : Nat
  outputTokens : Nat
deriving DecidableEq, Repr

/-- One benchmark task (the fields of the task dict that the lifecycle reads). -/
structure Task where
  task_id : String
  entry_point : String
deriving DecidableEq, Repr

/-- Python `a or b` for strings/None: `None` and `""` are falsy. -/
def pyStrOr (a b : Option String) : Option String :=
  match a with
  | some s => if s = "" then b else some s
  | none => b

/-- Python `a or b` where `a` is a string-or-None and `b` a string default. -/
def pyOrDefault (a : Option String) (b : String) : String :=
  match a with
  | some s => if s = "" then b else s
  | none => b

/-- Python `a or b` on numbers: `0` is falsy. -/
def pyNatOr (a b : Nat) : Nat := if a ≠ 0 then a else b

/-- Python `a or b` on numbers: `0` is falsy. -/
def pyRatOr (a b : ℚ) : ℚ := if a ≠ 0 then a else b

/-- Python `a or b` on dicts: the empty dict is falsy. -/
def pyUsageOr (a b : List (String × Usage)) : List (String × Usage) :=
  if a ≠ [] then a else b

/-- Python `not s` for a string-or-None: true on `None` and `""`. -/
def strFalsy : Option String → Bool
  | none => true
  | some s => s = ""

/-- Python `round(x, nd)` on an exact rational. -/
def roundDec (nd : Nat) (x : ℚ) : ℚ :=
  ((round (x * (10 : ℚ) ^ nd) : ℤ) : ℚ) / (10 : ℚ) ^ nd

/-- `build_prompt`: the fixed first-attempt instruction. -/
def build_prompt (_task : Task) : String :=
  "Read prompt.md and implement the function in solution.py. " ++
  "Only edit solution.py. Do not create new files."

/-- `build_retry_prompt`: the retry instruction built from the previous
attempt's test output, truncated to 2000 characters with a marker. -/
def build_retry_prompt (test_output : String) : String :=
  let test_output :=
    if 2000 < test_output.length then test_output.take 2000 ++ "\n... (truncated)"
    else test_output
  "The tests failed with the following output:\n\n" ++ test_output ++
  "\n\nPlease fix solution.py to pass the tests."

/-- The fields `run_claude` probes in the parsed CLI JSON output, with
Python `.get` defaults (`False`, `None`, `0`, empty dict). -/
structure AgentJson where
  isError : Bool := false
  is_error : Bool := false
  subtype : Option String := none
  errorType : Option String := none
  sessionId : Option String := none
  session_id : Option String := none
  numTurns : Nat := 0
  num_turns : Nat := 0
  costUSD : ℚ := 0
  cost_usd : ℚ := 0
  modelUsage : List (String × Usage) := []
  model_usage : List (String × Usage) := []
deriving DecidableEq, Repr

/-- The `raw_result` field of a `run_claude` result: either the truncated
stdout/stderr/returncode recorded on a JSON parse failure, or the parsed data. -/
inductive RawResult where
  | parseFailure (stdout stderr : String) (returncode : Int)
  | parsed (data : AgentJson)
deriving DecidableEq, Repr

/-- Outcome of the `subprocess.run` call inside `run_claude`: either a
wall-clock timeout (`subprocess.TimeoutExpired`) or completion with
captured stdout, stderr and return code. -/
inductive SubprocessOutcome where
  | timedOut
  | completed (stdout stderr : String) (returncode : Int)
deriving DecidableEq, Repr

/-- The normalized result dict returned by `run_claude`. -/
structure RunClaudeResult where
  session_id : Option String
  duration_ms : Nat
  num_turns : Nat
  total_cost_usd : ℚ
  model_usage : List (String × Usage)
  is_error : Bool
  error_subtype : Option String
  raw_result : Option RawResult
deriving DecidableEq, Repr

/-- `run_claude`: invoke the CLI and normalize its response.
`jsonParse` stands for `json.loads` on the captured stdout (`none` on
`JSONDecodeError`/`TypeError`); `outcome` is the subprocess outcome and
`duration_ms` the externally measured wall-clock duration. -/
def run_claude (jsonParse : String → Option AgentJson) (outcome : SubprocessOutcome)
    (session_id : Option String) (duration_ms : Nat) : RunClaudeResult :=
  match outcome with
  | .timedOut =>
      { session_id := session_id
        duration_ms := duration_ms
        num_turns := 0
        total_cost_usd := 0
        model_usage := []
        is_error := true
        error_subtype := some "timeout"
        raw_result := none }
  | .completed stdout stderr returncode =>
      match jsonParse stdout with
      | none =>
          { session_id := session_id
            duration_ms := duration_ms
            num_turns := 0
            total_cost_usd := 0
            model_usage := []
            is_error := true
            error_subtype := some "claude_error"
            raw_result := some (.parseFailure (stdout.take 2000) (stderr.take 2000) returncode) }
      | some data =>
          let is_error := data.isError || data.is_error
          let subtype0 := pyStrOr data.subtype data.errorType
          let subtype := if is_error && strFalsy subtype0 then some "claude_error" else subtype0
          { session_id := pyStrOr data.sessionId (pyStrOr data.session_id session_id)
            duration_ms := duration_ms
            num_turns := pyNatOr data.numTurns data.num_turns
            total_cost_usd := pyRatOr data.costUSD data.cost_usd
            model_usage := pyUsageOr data.modelUsage data.model_usage
            is_error := is_error
            error_subtype := subtype
            raw_result := some (.parsed data) }

/-- Update the first entry of an association list that carries the given key. -/
def updateFirst (f : Usage → Usage) (model : String) :
    List (String × Usage) → List (String × Usage)
  | [] => []
  | (k, v) :: rest =>
      if k = model then (k, f v) :: rest else (k, v) :: updateFirst f model rest

/-- One iteration of the model-usage merge loop:
`if model not in merged: merged[model] = zero dict` followed by
`merged[model][key] += usage.get(key, 0)` for both token keys. -/
def mergeOne (merged : List (String × Usage)) (entry : String × Usage) :
    List (String × Usage) :=
  let merged :=
    if merged.any (fun p => p.1 = entry.1) then merged
    else merged ++ [(entry.1, ⟨0, 0⟩)]
  updateFirst
    (fun v => ⟨v.inputTokens + entry.2.inputTokens, v.outputTokens + entry.2.outputTokens⟩)
    entry.1 merged

/-- The model-usage merge loop of `run_task`/`aggregate_results`:
fold the incoming `modelUsage` dict into the running map. -/
def mergeUsage (merged incoming : List (String × Usage)) : List (String × Usage) :=
  incoming.foldl mergeOne merged

/-- Combined token count of one usage record. -/
def combined (u : Usage) : Nat := u.inputTokens + u.outputTokens

/-- One comparison step of Python `max` over the usage map: a later key
replaces the current best only if its combined count is strictly greater. -/
def pickMax (best : String × Nat) (p : String × Usage) : String × Nat :=
  if best.2 < combined p.2 then (p.1, combined p.2) else best

/-- `max(merged_usage, key=lambda m: input + output)`, with `"unknown"` for the
empty map: Python `max` keeps the first key whose combined count is maximal,
scanning in insertion order. -/
def primaryModel : List (String × Usage) → String
  | [] => "unknown"
  | (k, v) :: rest => (rest.foldl pickMax (k, combined v)).1

/-- The per-task result dict built by `_build_result`. -/
structure TaskResult where
  task_id : String
  function_name : String
  passed : Bool
  attempts_used : Nat
  num_turns_total : Nat
  duration_ms_total : Nat
  total_cost_usd_total : ℚ
  modelUsage : List (String × Usage)
  error_type : Option String
deriving DecidableEq, Repr

/-- `_build_result`: assemble the per-task result dict (cost rounded to 6 places). -/
def build_result (task : Task) (passed : Bool) (attempts : Nat) (turns : Nat)
    (duration_ms : Nat) (cost : ℚ) (model_usage : List (String × Usage))
    (error_type : Option String) : TaskResult :=
  { task_id := task.task_id
    function_name := task.entry_point
    passed := passed
    attempts_used := attempts
    num_turns_total := turns
    duration_ms_total := duration_ms
    total_cost_usd_total := roundDec 6 cost
    modelUsage := model_usage
    error_type := error_type }

/-- The attempt loop of `run_task` (`for attempt in range(1, MAX_ATTEMPTS + 1)`).

`agent attempt prompt session` stands for `run_claude(prompt, workspace,
session_id)` on the given attempt; `tests attempt` stands for
`run_tests(workspace)` on that attempt (the workspace is opaque external
state, so both are indexed by the attempt number). `fuel` counts the loop
iterations that remain; the loop starts with `fuel = maxAttempts` at
`attempt = 1`. Besides the `TaskResult` the embedding returns the list of
prompts actually sent, in order, so that theorems can speak about which
attempts executed and with which instruction. -/
def run_task_loop (agent : Nat → String → Option String → RunClaudeResult)
    (tests : Nat → Bool × String) (task : Task) (maxAttempts : Nat) :
    Nat → Nat → Nat → Nat → ℚ → List (String × Usage) → Option String →
    Option String → String → TaskResult × List String
  | _attempt, 0, totalTurns, totalDuration, totalCost, mergedUsage, _sessionId,
    errorType, _lastOutput =>
      -- `# Should not reach here, but just in case`
      (build_result task false maxAttempts totalTurns totalDuration totalCost
        mergedUsage (some (pyOrDefault errorType "tests_failed")), [])
  | attempt, fuel + 1, totalTurns, totalDuration, totalCost, mergedUsage, sessionId,
    errorType, lastOutput =>
      let prompt := if attempt = 1 then build_prompt task else build_retry_prompt lastOutput
      let result := agent attempt prompt sessionId
      let sessionId' := result.session_id
      let totalTurns' := totalTurns + result.num_turns
      let totalCost' := totalCost + result.total_cost_usd
      let totalDuration' := totalDuration + result.duration_ms
      let merged' := mergeUsage mergedUsage result.model_usage
      if result.is_error then
        let errorType' := pyOrDefault result.error_subtype "claude_error"
        let tr := tests attempt
        if tr.1 then
          (build_result task true attempt totalTurns' totalDuration' totalCost'
            merged' none, [prompt])
        else if maxAttempts ≤ attempt then
          (build_result task false attempt totalTurns' totalDuration' totalCost'
            merged' (some errorType'), [prompt])
        else
          let rest := run_task_loop agent tests task maxAttempts (attempt + 1) fuel
            totalTurns' totalDuration' totalCost' merged' sessionId'
            (some errorType') tr.2
          (rest.1, prompt :: rest.2)
      else
        let tr := tests attempt
        if tr.1 then
          (build_result task true attempt totalTurns' totalDuration' totalCost'
            merged' none, [prompt])
        else if maxAttempts ≤ attempt then
          (build_result task false attempt totalTurns' totalDuration' totalCost'
            merged' (some "tests_failed"), [prompt])
        else
          let rest := run_task_loop agent tests task maxAttempts (attempt + 1) fuel
            totalTurns' totalDuration' totalCost' merged' sessionId'
            errorType tr.2
          (rest.1, prompt :: rest.2)

/-- `run_task`: run a single benchmark task through the full lifecycle.
Returns the `TaskResult` and the list of prompts sent to the agent. -/
def run_task (agent : Nat → String → Option String → RunClaudeResult)
    (tests : Nat → Bool × String) (task : Task) : TaskResult × List String :=
  run_task_loop agent tests task MAX_ATTEMPTS 1 MAX_ATTEMPTS 0 0 0 [] none none ""

/-- The daily results dict built by `aggregate_results`. -/
structure RunSummary where
  date : String
  suite : String
  score : ℚ
  passed : Nat
  total : Nat
  total_cost_usd : ℚ
  total_duration_ms : Nat
  primary_model : String
  claude_version : String
  modelUsage : List (String × Usage)
  started_at : String
  finished_at : String
  tasks : List TaskResult
deriving DecidableEq, Repr

/-- `aggregate_results`: build the full daily results record. -/
def aggregate_results (task_results : List TaskResult)
    (started_at finished_at claude_version : String) : RunSummary :=
  let passed_count := (task_results.filter (fun r => r.passed)).length
  let total_count := task_results.length
  let score :=
    if total_count ≠ 0 then
      roundDec 1 (((passed_count : ℚ) / (total_count : ℚ)) * 100)
    else 0
  let total_cost := roundDec 4 (task_results.map (fun r => r.total_cost_usd_total)).sum
  let total_duration := (task_results.map (fun r => r.duration_ms_total)).sum
  let merged_usage := task_results.foldl (fun acc r => mergeUsage acc r.modelUsage) []
  { date := started_at.take 10
    suite := "HumanEval-CC40"
    score := score
    passed := passed_count
    total := total_count
    total_cost_usd := total_cost
    total_duration_ms := total_duration
    primary_model := primaryModel merged_usage
    claude_version := claude_version
    modelUsage := merged_usage
    started_at := started_at
    finished_at := finished_at
    tasks := task_results }

/-- One row of `history.json`: the summary projection recorded per date. -/
structure HistoryEntry where
  date : String
  score : ℚ
  passed : Nat
  total : Nat
  total_cost_usd : ℚ
  total_duration_ms : Nat
  primary_model : String
  claude_version : String
deriving DecidableEq, Repr

/-- The summary entry `update_history` builds from a run's results. -/
def summary_entry (r : RunSummary) : HistoryEntry :=
  { date := r.date
    score := r.score
    passed := r.passed
    total := r.total
    total_cost_usd := r.total_cost_usd
    total_duration_ms := r.total_duration_ms
    primary_model := r.primary_model
    claude_version := r.claude_version }

/-- `update_history`: remove any existing entry for the run's date, append the
new entry, and sort the collection by date ascending (Python `list.sort` with
key `e["date"]`; `mergeSort` matches its stability). -/
def update_history (history : List HistoryEntry) (today_result : RunSummary) :
    List HistoryEntry :=
  let entry := summary_entry today_result
  let entries := history.filter (fun e => e.date ≠ entry.date) ++ [entry]
  entries.mergeSort (fun a b => a.date ≤ b.date)

/-! ## Observation helpers for the usage maps

These are not part of the source; they only serve to state properties of
`mergeUsage` and `primaryModel`. -/

/-- Dict read with default: `merged.get(model, zero usage)` on the
association list (first matching key wins, as keys are unique). -/
def lookupUsage : List (String × Usage) → String → Usage
  | [], _ => ⟨0, 0⟩
  | (k, v) :: rest, model => if k = model then v else lookupUsage rest model

/-- Component-wise sum of two usage records. -/
def addUsage (u v : Usage) : Usage :=
  ⟨u.inputTokens + v.inputTokens, u.outputTokens + v.outputTokens⟩

/-- Component-wise total of all entries of a usage list carrying a given key. -/
def totalFor : List (String × Usage) → String → Usage
  | [], _ => ⟨0, 0⟩
  | e :: rest, model =>
      if e.1 = model then addUsage e.2 (totalFor rest model) else totalFor rest model

/-! ## Helper lemmas about the attempt loop -/

theorem run_task_loop_error_iff (agent : Nat → String → Option String → RunClaudeResult)
    (tests : Nat → Bool × String) (task : Task) (maxAttempts : Nat) :
    ∀ fuel attempt tt td tc mu sid et lo,
      ((run_task_loop agent tests task maxAttempts attempt fuel tt td tc mu sid et lo).1.error_type = none
        ↔ (run_task_loop agent tests task maxAttempts attempt fuel tt td tc mu sid et lo).1.passed = true) := by
  intro fuel
  induction fuel with
  | zero =>
    intro attempt tt td tc mu sid et lo
    simp [run_task_loop, build_result]
  | succ f ih =>
    intro attempt tt td tc mu sid et lo
    simp only [run_task_loop]
    repeat' split
    all_goals first
      | exact ih _ _ _ _ _ _ _ _
      | simp [build_result]

theorem run_task_loop_attempts (agent : Nat → String → Option String → RunClaudeResult)
    (tests : Nat → Bool × String) (task : Task) (maxAttempts : Nat) :
    ∀ fuel attempt tt td tc mu sid et lo,
      attempt + fuel = maxAttempts + 1 → 1 ≤ fuel →
      (run_task_loop agent tests task maxAttempts attempt fuel tt td tc mu sid et lo).1.attempts_used + 1
          = attempt + (run_task_loop agent tests task maxAttempts attempt fuel tt td tc mu sid et lo).2.length ∧
      attempt ≤ (run_task_loop agent tests task maxAttempts attempt fuel tt td tc mu sid et lo).1.attempts_used ∧
      (run_task_loop agent tests task maxAttempts attempt fuel tt td tc mu sid et lo).1.attempts_used ≤ maxAttempts ∧
      ((run_task_loop agent tests task maxAttempts attempt fuel tt td tc mu sid et lo).1.passed = false →
        (run_task_loop agent tests task maxAttempts attempt fuel tt td tc mu sid et lo).1.attempts_used = maxAttempts) := by
  intro fuel
  induction fuel with
  | zero =>
    intro attempt tt td tc mu sid et lo hsum hf
    omega
  | succ f ih =>
    intro attempt tt td tc mu sid et lo hsum hf
    simp only [run_task_loop]
    repeat' split
    all_goals
      first
        | (simp [build_result]; omega)
        | refine ⟨by simpa [Nat.add_assoc, Nat.add_comm, Nat.add_left_comm] using
              (ih (attempt + 1) _ _ _ _ _ _ _ (by omega) (by omega)).1,
            Nat.le_of_succ_le (ih (attempt + 1) _ _ _ _ _ _ _ (by omega) (by omega)).2.1,
            (ih (attempt + 1) _ _ _ _ _ _ _ (by omega) (by omega)).2.2.1,
            (ih (attempt + 1) _ _ _ _ _ _ _ (by omega) (by omega)).2.2.2⟩

/-! ## Helper lemmas about the usage maps -/

theorem lookupUsage_append_zero (m : List (String × Usage)) (key k : String) :
    lookupUsage (m ++ [(key, ⟨0, 0⟩)]) k = lookupUsage m k := by
  induction m with
  | nil => simp [lookupUsage]
  | cons e rest ih =>
    obtain ⟨k0, v0⟩ := e
    simp only [List.cons_append, lookupUsage]
    split <;> simp [ih]

theorem keys_updateFirst (f : Usage → Usage) (model : String) :
    ∀ m : List (String × Usage), (updateFirst f model m).map Prod.fst = m.map Prod.fst := by
  intro m
  induction m with
  | nil => rfl
  | cons e rest ih =>
    obtain ⟨k0, v0⟩ := e
    simp only [updateFirst]
    split <;> simp [ih]

theorem lookupUsage_updateFirst (f : Usage → Usage) (model : String) :
    ∀ (m : List (String × Usage)) (k : String), model ∈ m.map Prod.fst →
      lookupUsage (updateFirst f model m) k =
        if k = model then f (lookupUsage m k) else lookupUsage m k := by
  intro m
  induction m with
  | nil => intro k h; simp at h
  | cons e rest ih =>
    intro k hmem
    obtain ⟨k0, v0⟩ := e
    by_cases h0 : k0 = model
    · subst h0
      simp only [updateFirst, if_pos rfl, lookupUsage]
      by_cases hk : k0 = k
      · subst hk; simp [lookupUsage]
      · simp [lookupUsage, hk, Ne.symm hk]
    · have hmem' : model ∈ rest.map Prod.fst := by
        simp at hmem
        rcases hmem with h | h
        · exact absurd h.symm h0
        · simpa using h
      simp only [updateFirst, if_neg h0, lookupUsage]
      by_cases hk : k0 = k
      · subst hk
        have : ¬ k0 = model := h0
        simp [lookupUsage, this]
      · simp [lookupUsage, hk, ih k hmem']

theorem addUsage_assoc (a b c : Usage) :
    addUsage (addUsage a b) c = addUsage a (addUsage b c) := by
  simp [addUsage, Nat.add_assoc]

theorem lookupUsage_mergeOne (m : List (String × Usage)) (e : String × Usage) (k : String) :
    lookupUsage (mergeOne m e) k =
      if e.1 = k then addUsage (lookupUsage m k) e.2 else lookupUsage m k := by
  unfold mergeOne
  by_cases hmem : e.1 ∈ m.map Prod.fst
  · have hany : m.any (fun p => p.1 = e.1) = true := by
      simp only [List.any_eq_true, decide_eq_true_eq]
      rcases List.mem_map.mp hmem with ⟨p, hp, hpk⟩
      exact ⟨p, hp, hpk⟩
    rw [if_pos hany, lookupUsage_updateFirst _ _ _ _ hmem]
    by_cases hk : k = e.1
    · subst hk; simp [addUsage]
    · have hk' : ¬ e.1 = k := fun h => hk h.symm
      simp [hk, hk']
  · have hany : m.any (fun p => p.1 = e.1) = false := by
      simp only [List.any_eq_false, decide_eq_true_eq]
      intro p hp hpk
      exact hmem (List.mem_map.mpr ⟨p, hp, hpk⟩)
    rw [if_neg (by simp [hany])]
    have hmem2 : e.1 ∈ (m ++ [(e.1, (⟨0, 0⟩ : Usage))]).map Prod.fst := by simp
    rw [lookupUsage_updateFirst _ _ _ _ hmem2, lookupUsage_append_zero]
    by_cases hk : k = e.1
    · subst hk; simp [addUsage]
    · have hk' : ¬ e.1 = k := fun h => hk h.symm
      simp [hk, hk']

theorem lookupUsage_mergeUsage (n : List (String × Usage)) :
    ∀ (m : List (String × Usage)) (k : String),
      lookupUsage (mergeUsage m n) k = addUsage (lookupUsage m k) (totalFor n k) := by
  induction n with
  | nil =>
    intro m k
    cases hu : lookupUsage m k
    simp [mergeUsage, totalFor, addUsage, hu]
  | cons e rest ih =>
    intro m k
    have hstep : mergeUsage m (e :: rest) = mergeUsage (mergeOne m e) rest := rfl
    rw [hstep, ih, lookupUsage_mergeOne]
    by_cases hek : e.1 = k
    · simp [totalFor, hek, addUsage_assoc]
    · simp [totalFor, hek]

theorem keys_mergeOne (m : List (String × Usage)) (e : String × Usage) :
    (mergeOne m e).map Prod.fst =
      if e.1 ∈ m.map Prod.fst then m.map Prod.fst else m.map Prod.fst ++ [e.1] := by
  unfold mergeOne
  by_cases hmem : e.1 ∈ m.map Prod.fst
  · have hany : m.any (fun p => p.1 = e.1) = true := by
      simp only [List.any_eq_true, decide_eq_true_eq]
      rcases List.mem_map.mp hmem with ⟨p, hp, hpk⟩
      exact ⟨p, hp, hpk⟩
    rw [if_pos hany, keys_updateFirst, if_pos hmem]
  · have hany : m.any (fun p => p.1 = e.1) = false := by
      simp only [List.any_eq_false, decide_eq_true_eq]
      intro p hp hpk
      exact hmem (List.mem_map.mpr ⟨p, hp, hpk⟩)
    rw [if_neg (by simp [hany]), keys_updateFirst, if_neg hmem]
    simp

theorem mem_keys_mergeUsage (n : List (String × Usage)) :
    ∀ (m : List (String × Usage)) (k : String),
      k ∈ (mergeUsage m n).map Prod.fst ↔
        k ∈ m.map Prod.fst ∨ k ∈ n.map Prod.fst := by
  induction n with
  | nil => intro m k; simp [mergeUsage]
  | cons e rest ih =>
    intro m k
    have hstep : mergeUsage m (e :: rest) = mergeUsage (mergeOne m e) rest := rfl
    rw [hstep, ih, keys_mergeOne]
    by_cases hmem : e.1 ∈ m.map Prod.fst
    · rw [if_pos hmem]
      simp only [List.map_cons, List.mem_cons]
      constructor
      · rintro (h | h)
        · exact Or.inl h
        · exact Or.inr (Or.inr h)
      · rintro (h | h | h)
        · exact Or.inl h
        · subst h; exact Or.inl hmem
        · exact Or.inr h
    · rw [if_neg hmem]
      simp only [List.mem_append, List.mem_singleton, List.map_cons, List.mem_cons]
      tauto

theorem pickMax_foldl_spec :
    ∀ (rest : List (String × Usage)) (b : String × Nat),
      (rest.foldl pickMax b = b ∨ ∃ p ∈ rest, rest.foldl pickMax b = (p.1, combined p.2)) ∧
      b.2 ≤ (rest.foldl pickMax b).2 ∧
      ∀ p ∈ rest, combined p.2 ≤ (rest.foldl pickMax b).2 := by
  intro rest
  induction rest with
  | nil => intro b; simp
  | cons q rest ih =>
    intro b
    simp only [List.foldl_cons]
    obtain ⟨h1, h2, h3⟩ := ih (pickMax b q)
    refine ⟨?_, ?_, ?_⟩
    · rcases h1 with h | ⟨p, hp, hr⟩
      · by_cases hq : b.2 < combined q.2
        · right
          exact ⟨q, by simp, by rw [h]; simp [pickMax, hq]⟩
        · left
          rw [h]; simp [pickMax, hq]
      · right
        exact ⟨p, by simp [hp], hr⟩
    · refine le_trans ?_ h2
      by_cases hq : b.2 < combined q.2 <;> simp [pickMax, hq]
      exact le_of_lt hq
    · intro p hp
      rcases List.mem_cons.mp hp with rfl | hp'
      · refine le_trans ?_ h2
        by_cases hq : b.2 < combined p.2 <;> simp [pickMax, hq]
        omega
      · exact h3 p hp'

theorem primaryModel_max (m : List (String × Usage)) (hm : m ≠ []) :
    ∃ u, (primaryModel m, u) ∈ m ∧ ∀ p ∈ m, combined p.2 ≤ combined u := by
  obtain ⟨⟨k, v⟩, rest, rfl⟩ : ∃ e rest, m = e :: rest := by
    cases m with
    | nil => exact absurd rfl hm
    | cons e rest => exact ⟨e, rest, rfl⟩
  obtain ⟨h1, h2, h3⟩ := pickMax_foldl_spec rest (k, combined v)
  rcases h1 with h | ⟨p, hp, hr⟩
  · refine ⟨v, ?_, ?_⟩
    · simp [primaryModel, h]
    · intro p hp'
      rcases List.mem_cons.mp hp' with rfl | hp''
      · simp
      · have := h3 p hp''
        rw [h] at this
        exact this
  · refine ⟨p.2, ?_, ?_⟩
    · simp only [primaryModel, hr]
      exact List.mem_cons_of_mem _ hp
    · intro q hq
      rcases List.mem_cons.mp hq with hq0 | hq'
      · have h2' := h2
        rw [hr] at h2'
        rw [hq0]
        exact h2'
      · have := h3 q hq'
        rw [hr] at this
        exact this

/-! ## Claim theorems -/

/-- C1: for every run's aggregation, `passed` counts the task results with
`passed = true`, `total` is the length of the list, the score equals
`round(100 * passed / total, 1)` when `total > 0`, and the score is `0`
when `total = 0` (no division by zero). -/
theorem aggregate_results_score (task_results : List TaskResult)
    (started_at finished_at claude_version : String) :
    (aggregate_results task_results started_at finished_at claude_version).passed
        = (task_results.filter (fun r => r.passed)).length ∧
    (aggregate_results task_results started_at finished_at claude_version).total
        = task_results.length ∧
    (0 < task_results.length →
      (aggregate_results task_results started_at finished_at claude_version).score
        = roundDec 1 (100 * ((task_results.filter (fun r => r.passed)).length : ℚ)
            / (task_results.length : ℚ))) ∧
    (task_results.length = 0 →
      (aggregate_results task_results started_at finished_at claude_version).score = 0) := by
  refine ⟨rfl, rfl, ?_, ?_⟩
  · intro h
    have h' : task_results.length ≠ 0 := Nat.pos_iff_ne_zero.mp h
    simp only [aggregate_results, h', ne_eq, not_false_eq_true, if_true]
    congr 1
    ring
  · intro h
    simp [aggregate_results, h]

/-- Witness for C1 at a concrete two-task run (one passed, one failed). -/
theorem aggregate_results_score_witness :
    0 < ([⟨"HumanEval/0", "f", true, 1, 2, 3, 0, [], none⟩,
          ⟨"HumanEval/1", "g", false, 2, 4, 5, 0, [], some "tests_failed"⟩] : List TaskResult).length ∧
    (aggregate_results
        [⟨"HumanEval/0", "f", true, 1, 2, 3, 0, [], none⟩,
         ⟨"HumanEval/1", "g", false, 2, 4, 5, 0, [], some "tests_failed"⟩]
        "2025-06-01T00:00:00+00:00" "2025-06-01T01:00:00+00:00" "1.0.0").score
      = roundDec 1 (100 * ((([⟨"HumanEval/0", "f", true, 1, 2, 3, 0, [], none⟩,
          ⟨"HumanEval/1", "g", false, 2, 4, 5, 0, [], some "tests_failed"⟩] : List TaskResult).filter
            (fun r => r.passed)).length : ℚ)
          / (([⟨"HumanEval/0", "f", true, 1, 2, 3, 0, [], none⟩,
          ⟨"HumanEval/1", "g", false, 2, 4, 5, 0, [], some "tests_failed"⟩] : List TaskResult).length : ℚ)) :=
  ⟨by decide,
   (aggregate_results_score
      [⟨"HumanEval/0", "f", true, 1, 2, 3, 0, [], none⟩,
       ⟨"HumanEval/1", "g", false, 2, 4, 5, 0, [], some "tests_failed"⟩]
      "2025-06-01T00:00:00+00:00" "2025-06-01T01:00:00+00:00" "1.0.0").2.2.1 (by decide)⟩

/-- C2: for every `TaskResult` produced by `run_task`, `error_type` is null
iff `passed` is true: `passed = true` implies `error_type = none`, and
`passed = false` implies `error_type ≠ none`. -/
theorem task_result_error_type_iff_passed
    (agent : Nat → String → Option String → RunClaudeResult)
    (tests : Nat → Bool × String) (task : Task) :
    ((run_task agent tests task).1.passed = true →
      (run_task agent tests task).1.error_type = none) ∧
    ((run_task agent tests task).1.passed = false →
      (run_task agent tests task).1.error_type ≠ none) := by
  have h : (run_task agent tests task).1.error_type = none ↔
      (run_task agent tests task).1.passed = true :=
    run_task_loop_error_iff agent tests task MAX_ATTEMPTS MAX_ATTEMPTS 1 0 0 0 [] none none ""
  constructor
  · exact fun hp => h.mpr hp
  · intro hp hn
    have ht := h.mp hn
    rw [ht] at hp
    exact absurd hp (by decide)

/-- Witness for C2 at a concrete error-free passing run. -/
theorem task_result_error_type_iff_passed_witness :
    (run_task (fun _ _ _ => run_claude (fun _ => some {}) (.completed "ok" "" 0) none 5)
        (fun _ => (true, "")) ⟨"HumanEval/0", "f"⟩).1.passed = true ∧
    (run_task (fun _ _ _ => run_claude (fun _ => some {}) (.completed "ok" "" 0) none 5)
        (fun _ => (true, "")) ⟨"HumanEval/0", "f"⟩).1.error_type = none :=
  ⟨rfl,
   (task_result_error_type_iff_passed
      (fun _ _ _ => run_claude (fun _ => some {}) (.completed "ok" "" 0) none 5)
      (fun _ => (true, "")) ⟨"HumanEval/0", "f"⟩).1 rfl⟩

/-- C3: if the attempt-1 agent invocation errors but the artifact then passes
the hidden tests, `run_task` terminates immediately (one attempt executed)
with `passed = true`, `attempts_used = 1`, and `error_type = none`: the
agent's error classifier is cleared, not recorded. -/
theorem run_task_agent_error_tests_pass
    (agent : Nat → String → Option String → RunClaudeResult)
    (tests : Nat → Bool × String) (task : Task)
    (h1 : (agent 1 (build_prompt task) none).is_error = true)
    (h2 : (tests 1).1 = true) :
    (run_task agent tests task).1.passed = true ∧
    (run_task agent tests task).1.attempts_used = 1 ∧
    (run_task agent tests task).1.error_type = none ∧
    (run_task agent tests task).2.length = 1 := by
  simp [run_task, MAX_ATTEMPTS, run_task_loop, h1, h2, build_result]

/-- Witness for C3: a timed-out first invocation whose artifact passes. -/
theorem run_task_agent_error_tests_pass_witness :
    (run_task (fun _ _ _ => run_claude (fun _ => none) .timedOut none 7)
        (fun _ => (true, "ok")) ⟨"HumanEval/1", "g"⟩).1.passed = true ∧
    (run_task (fun _ _ _ => run_claude (fun _ => none) .timedOut none 7)
        (fun _ => (true, "ok")) ⟨"HumanEval/1", "g"⟩).1.attempts_used = 1 ∧
    (run_task (fun _ _ _ => run_claude (fun _ => none) .timedOut none 7)
        (fun _ => (true, "ok")) ⟨"HumanEval/1", "g"⟩).1.error_type = none ∧
    (run_task (fun _ _ _ => run_claude (fun _ => none) .timedOut none 7)
        (fun _ => (true, "ok")) ⟨"HumanEval/1", "g"⟩).2.length = 1 :=
  run_task_agent_error_tests_pass
    (fun _ _ _ => run_claude (fun _ => none) .timedOut none 7)
    (fun _ => (true, "ok")) ⟨"HumanEval/1", "g"⟩ rfl rfl

/-- C4: if the first-attempt agent invocation errors and the workspace
artifact fails the hidden tests, the controller executes a second attempt
before terminating, and the second attempt's instruction contains the first
attempt's test output verbatim when it is at most 2000 characters, and
otherwise its first 2000 characters followed by the truncation marker. -/
theorem run_task_agent_error_retry_feedback
    (agent : Nat → String → Option String → RunClaudeResult)
    (tests : Nat → Bool × String) (task : Task)
    (h1 : (agent 1 (build_prompt task) none).is_error = true)
    (h2 : (tests 1).1 = false) :
    (run_task agent tests task).2 = [build_prompt task, build_retry_prompt (tests 1).2] ∧
    ((tests 1).2.length ≤ 2000 →
      ∃ a b, build_retry_prompt (tests 1).2 = a ++ (tests 1).2 ++ b) ∧
    (2000 < (tests 1).2.length →
      ∃ a b, build_retry_prompt (tests 1).2
        = a ++ ((tests 1).2.take 2000 ++ "\n... (truncated)") ++ b) := by
  refine ⟨?_, ?_, ?_⟩
  · simp [run_task, MAX_ATTEMPTS, run_task_loop, h1, h2]
    repeat' split
    all_goals simp
  · intro h
    refine ⟨"The tests failed with the following output:\n\n",
      "\n\nPlease fix solution.py to pass the tests.", ?_⟩
    simp [build_retry_prompt, Nat.not_lt.mpr h]
  · intro h
    refine ⟨"The tests failed with the following output:\n\n",
      "\n\nPlease fix solution.py to pass the tests.", ?_⟩
    simp [build_retry_prompt, h]

/-- Witness for C4: a timed-out first invocation over a failing stub. -/
theorem run_task_agent_error_retry_feedback_witness :
    (run_task (fun _ _ _ => run_claude (fun _ => none) .timedOut none 7)
        (fun _ => (false, "AssertionError: boom")) ⟨"HumanEval/2", "h"⟩).2
      = [build_prompt ⟨"HumanEval/2", "h"⟩, build_retry_prompt "AssertionError: boom"] ∧
    ("AssertionError: boom".length ≤ 2000 ∧
      ∃ a b, build_retry_prompt "AssertionError: boom" = a ++ "AssertionError: boom" ++ b) :=
  ⟨(run_task_agent_error_retry_feedback
      (fun _ _ _ => run_claude (fun _ => none) .timedOut none 7)
      (fun _ => (false, "AssertionError: boom")) ⟨"HumanEval/2", "h"⟩ rfl rfl).1,
   by decide,
   (run_task_agent_error_retry_feedback
      (fun _ _ _ => run_claude (fun _ => none) .timedOut none 7)
      (fun _ => (false, "AssertionError: boom")) ⟨"HumanEval/2", "h"⟩ rfl rfl).2.1 (by decide)⟩

/-- C5: after `update_history` records a summary, the history holds exactly
one entry with the summary's date, that entry carries the new run's values,
and the whole collection is sorted ascending by date. -/
theorem update_history_replace_and_sorted (history : List HistoryEntry) (today : RunSummary) :
    (update_history history today).countP
        (fun e => e.date == (summary_entry today).date) = 1 ∧
    (∀ e ∈ update_history history today,
      e.date = (summary_entry today).date → e = summary_entry today) ∧
    List.Sorted (fun a b : HistoryEntry => a.date ≤ b.date) (update_history history today) := by
  have hperm : List.Perm (update_history history today)
      (history.filter (fun e => e.date ≠ (summary_entry today).date) ++ [summary_entry today]) := by
    simpa [update_history] using
      List.mergeSort_perm
        (history.filter (fun e => e.date ≠ (summary_entry today).date) ++ [summary_entry today])
        (fun a b => a.date ≤ b.date)
  refine ⟨?_, ?_, ?_⟩
  · rw [hperm.countP_eq]
    simp [List.countP_append, List.countP_eq_zero, List.mem_filter]
  · intro e he hdate
    rcases List.mem_append.mp (hperm.mem_iff.mp he) with hf | hs
    · have hne := (List.mem_filter.mp hf).2
      simp only [ne_eq, decide_not, Bool.not_eq_true', decide_eq_false_iff_not] at hne
      exact absurd hdate hne
    · simpa using hs
  · have hs : (List.mergeSort
        (history.filter (fun e => e.date ≠ (summary_entry today).date) ++ [summary_entry today])
        (fun a b => a.date ≤ b.date)).Pairwise
          (fun a b : HistoryEntry => (a.date ≤ b.date : Bool)) :=
      List.sorted_mergeSort
        (fun a b c hab hbc => by
          simp only [decide_eq_true_eq] at *
          exact le_trans hab hbc)
        (fun a b => by
          simpa [Bool.or_eq_true, decide_eq_true_eq] using le_total a.date b.date)
        _
    simp only [update_history]
    exact hs.imp (fun h => by simpa using h)

/-- Witness for C5: recording one summary into an empty history. -/
theorem update_history_replace_and_sorted_witness :
    (⟨"2025-06-01", 50, 20, 40, 1, 1000, "claude-x", "1.0.0"⟩ : HistoryEntry)
      = summary_entry ⟨"2025-06-01", "HumanEval-CC40", 50, 20, 40, 1, 1000, "claude-x",
          "1.0.0", [], "2025-06-01T00:00:00+00:00", "2025-06-01T01:00:00+00:00", []⟩ :=
  (update_history_replace_and_sorted []
      ⟨"2025-06-01", "HumanEval-CC40", 50, 20, 40, 1, 1000, "claude-x",
        "1.0.0", [], "2025-06-01T00:00:00+00:00", "2025-06-01T01:00:00+00:00", []⟩).2.1
    ⟨"2025-06-01", 50, 20, 40, 1, 1000, "claude-x", "1.0.0"⟩
    (by simp [update_history, summary_entry]) rfl

/-- C6: merging per-model usage maps sums input and output token counts
component-wise per model key, creating entries for unseen models (stated via
`lookupUsage`/`totalFor` and key membership); the concrete example from the
spec merges to the expected map; and `primaryModel` is a key of maximal
combined token count, `"unknown"` on the empty map. -/
theorem usage_merge_and_primary_model :
    (mergeUsage [("m1", ⟨10, 5⟩)] [("m1", ⟨3, 1⟩), ("m2", ⟨2, 0⟩)]
        = [("m1", ⟨13, 6⟩), ("m2", ⟨2, 0⟩)]
      ∧ primaryModel (mergeUsage [("m1", ⟨10, 5⟩)] [("m1", ⟨3, 1⟩), ("m2", ⟨2, 0⟩)]) = "m1")
    ∧ (∀ m n k, lookupUsage (mergeUsage m n) k = addUsage (lookupUsage m k) (totalFor n k))
    ∧ (∀ m n k, k ∈ (mergeUsage m n).map Prod.fst ↔
        k ∈ m.map Prod.fst ∨ k ∈ n.map Prod.fst)
    ∧ primaryModel [] = "unknown"
    ∧ (∀ m, m ≠ [] → ∃ u, (primaryModel m, u) ∈ m ∧ ∀ p ∈ m, combined p.2 ≤ combined u) :=
  ⟨⟨rfl, rfl⟩, fun m n k => lookupUsage_mergeUsage n m k,
   fun m n k => mem_keys_mergeUsage n m k, rfl, primaryModel_max⟩

/-- Witness for C6 at concrete maps. -/
theorem usage_merge_and_primary_model_witness :
    lookupUsage (mergeUsage [("m1", (⟨10, 5⟩ : Usage))] [("m1", ⟨3, 1⟩), ("m2", ⟨2, 0⟩)]) "m2"
        = addUsage (lookupUsage [("m1", (⟨10, 5⟩ : Usage))] "m2")
            (totalFor [("m1", ⟨3, 1⟩), ("m2", ⟨2, 0⟩)] "m2")
    ∧ (∃ u, (primaryModel [("a", (⟨1, 2⟩ : Usage)), ("b", ⟨5, 0⟩)], u) ∈
          [("a", (⟨1, 2⟩ : Usage)), ("b", ⟨5, 0⟩)]
        ∧ ∀ p ∈ [("a", (⟨1, 2⟩ : Usage)), ("b", ⟨5, 0⟩)], combined p.2 ≤ combined u) :=
  ⟨usage_merge_and_primary_model.2.1 _ _ _,
   usage_merge_and_primary_model.2.2.2.2 _ (by decide)⟩

/-- C7 counterexample: on an unparseable agent response the recorded error
kind is the literal `"claude_error"`, not `"agent_error"` as the claim
states. -/
theorem run_claude_agent_error_counterexample :
    (run_claude (fun _ => none) (.completed "not json" "boom" 1) none 42).is_error = true
    ∧ (run_claude (fun _ => none) (.completed "not json" "boom" 1) none 42).error_subtype
        ≠ some "agent_error"
    ∧ (run_claude (fun _ => none) (.completed "not json" "boom" 1) none 42).error_subtype
        = some "claude_error" :=
  ⟨rfl, by decide, rfl⟩

/-- C7 (amended): on an unparseable response `run_claude` returns the error
flag with error kind `"claude_error"` and preserves stdout and stderr each
truncated to their first 2000 characters; on a well-formed response that
reports an internal failure without its own subtype, the error kind defaults
to `"claude_error"`. -/
theorem run_claude_claude_error_spec
    (jsonParse : String → Option AgentJson) (stdout stderr : String)
    (returncode : Int) (session_id : Option String) (duration_ms : Nat) :
    (jsonParse stdout = none →
      run_claude jsonParse (.completed stdout stderr returncode) session_id duration_ms
        = { session_id := session_id
            duration_ms := duration_ms
            num_turns := 0
            total_cost_usd := 0
            model_usage := []
            is_error := true
            error_subtype := some "claude_error"
            raw_result := some (.parseFailure (stdout.take 2000) (stderr.take 2000) returncode) })
    ∧ (∀ data, jsonParse stdout = some data →
        (data.isError || data.is_error) = true →
        strFalsy (pyStrOr data.subtype data.errorType) = true →
        (run_claude jsonParse (.completed stdout stderr returncode) session_id
            duration_ms).is_error = true
        ∧ (run_claude jsonParse (.completed stdout stderr returncode) session_id
            duration_ms).error_subtype = some "claude_error") := by
  constructor
  · intro hp
    simp [run_claude, hp]
  · intro data hd herr hsub
    simp [run_claude, hd, herr, hsub]

/-- Witness for the amended C7 at concrete responses. -/
theorem run_claude_claude_error_spec_witness :
    run_claude (fun _ => none) (.completed "x" "y" 2) (some "s") 3
      = { session_id := some "s", duration_ms := 3, num_turns := 0, total_cost_usd := 0,
          model_usage := [], is_error := true, error_subtype := some "claude_error",
          raw_result := some (.parseFailure ("x".take 2000) ("y".take 2000) 2) }
    ∧ ((run_claude (fun _ => some { isError := true }) (.completed "z" "" 0) none 1).is_error = true
      ∧ (run_claude (fun _ => some { isError := true }) (.completed "z" "" 0) none 1).error_subtype
          = some "claude_error") :=
  ⟨(run_claude_claude_error_spec (fun _ => none) "x" "y" 2 (some "s") 3).1 rfl,
   (run_claude_claude_error_spec (fun _ => some { isError := true }) "z" "" 0 none 1).2
      { isError := true } rfl rfl rfl⟩

/-- C8: on a wall-clock timeout `run_claude` returns the error flag with
error kind `"timeout"`, zero turns and zero cost, the incoming session
handle unchanged, and no raw result. -/
theorem run_claude_timeout_spec (jsonParse : String → Option AgentJson)
    (session_id : Option String) (duration_ms : Nat) :
    run_claude jsonParse .timedOut session_id duration_ms
      = { session_id := session_id, duration_ms := duration_ms, num_turns := 0,
          total_cost_usd := 0, model_usage := [], is_error := true,
          error_subtype := some "timeout", raw_result := none } := rfl

/-- C9: every `TaskResult` produced by `run_task` satisfies
`1 ≤ attempts_used ≤ MAX_ATTEMPTS`, and `attempts_used` equals the number of
attempts actually executed (the number of prompts sent to the agent). -/
theorem run_task_attempts_used_spec
    (agent : Nat → String → Option String → RunClaudeResult)
    (tests : Nat → Bool × String) (task : Task) :
    1 ≤ (run_task agent tests task).1.attempts_used ∧
    (run_task agent tests task).1.attempts_used ≤ MAX_ATTEMPTS ∧
    (run_task agent tests task).1.attempts_used = (run_task agent tests task).2.length := by
  have h := run_task_loop_attempts agent tests task MAX_ATTEMPTS MAX_ATTEMPTS 1 0 0 0 []
    none none "" (by omega) (by decide)
  simp only [run_task]
  exact ⟨h.2.1, h.2.2.1, by have h1 := h.1; omega⟩

/-- C10: a `TaskResult` with `passed = false` has consumed every allowed
attempt: `attempts_used = MAX_ATTEMPTS`; fewer attempts occur only on
success. -/
theorem run_task_failure_uses_all_attempts
    (agent : Nat → String → Option String → RunClaudeResult)
    (tests : Nat → Bool × String) (task : Task)
    (h : (run_task agent tests task).1.passed = false) :
    (run_task agent tests task).1.attempts_used = MAX_ATTEMPTS :=
  (run_task_loop_attempts agent tests task MAX_ATTEMPTS MAX_ATTEMPTS 1 0 0 0 []
    none none "" (by omega) (by decide)).2.2.2 h

/-- Witness for C10: a run that fails both attempts. -/
theorem run_task_failure_uses_all_attempts_witness :
    (run_task (fun _ _ _ => run_claude (fun _ => none) .timedOut none 7)
        (fun _ => (false, "fail")) ⟨"HumanEval/3", "k"⟩).1.attempts_used = MAX_ATTEMPTS :=
  run_task_failure_uses_all_attempts
    (fun _ _ _ => run_claude (fun _ => none) .timedOut none 7)
    (fun _ => (false, "fail")) ⟨"HumanEval/3", "k"⟩ rfl

end Bench
